import Mathlib

/-!
Verification of `scripts/get_current_time.py`, a single-file command-line
utility that reports the current date/time in several pre-formatted
representations.

The embedding is shallow: the captured instant (`datetime.now()`) becomes an
explicit `DateTime` value, each `strftime` format used by the script becomes a
Lean string-building function, and `main` becomes a pure function from the
captured instant and the argument vector to the pair (list of strings passed
to `print`, process exit status).
-/

namespace GetCurrentTime

/-- The instant captured by `datetime.now()` (line 18): local calendar fields
of one clock reading. -/
structure DateTime where
  year : Nat
  month : Nat
  day : Nat
  hour : Nat
  minute : Nat
  second : Nat
  deriving DecidableEq, Repr

/-- Zero-pad a numeral to two digits, as `strftime` does for `%m`, `%d`,
`%H`, `%M`, `%S` and `%y`. -/
def pad2 (n : Nat) : String :=
  if n < 10 then "0" ++ Nat.repr n else Nat.repr n

/-- Zero-pad a numeral to four digits, as `strftime` does for `%Y`. -/
def pad4 (n : Nat) : String :=
  if n < 10 then "000" ++ Nat.repr n
  else if n < 100 then "00" ++ Nat.repr n
  else if n < 1000 then "0" ++ Nat.repr n
  else Nat.repr n

/-- English month names used by `strftime("%B")` in the C locale. -/
def monthNames : List String :=
  ["January", "February", "March", "April", "May", "June", "July",
   "August", "September", "October", "November", "December"]

/-- `strftime("%B")`: full month name for month number `m` (1-based). -/
def monthName (m : Nat) : String :=
  monthNames.getD (m - 1) ""

/-- The dictionary returned by `get_time_info` (lines 16-28), as a structure.
Field values are exactly the strings the script computes from `now`:
`%Y`, `%y`, `%B %Y`, the f-string quarter, `%Y-%m-%d`, `%Y` again, and
`%Y-%m-%d %H:%M:%S`. -/
structure TimeInfo where
  year : String
  year_short : String
  month_year : String
  quarter : String
  date_iso : String
  search_suffix : String
  full_datetime : String
  deriving DecidableEq, Repr

/-- `get_time_info` (lines 16-28) applied to the captured instant `now`:
each dictionary value translated field by field from the source. The quarter
uses the f-string `"Q{(now.month - 1) // 3 + 1} {now.year}"`, whose year is
`str(now.year)` (unpadded), unlike the `%Y` fields. -/
def get_time_info (now : DateTime) : TimeInfo :=
  { year := pad4 now.year
    year_short := pad2 (now.year % 100)
    month_year := monthName now.month ++ " " ++ pad4 now.year
    quarter := "Q" ++ Nat.repr ((now.month - 1) / 3 + 1) ++ " " ++ Nat.repr now.year
    date_iso := pad4 now.year ++ "-" ++ pad2 now.month ++ "-" ++ pad2 now.day
    search_suffix := pad4 now.year
    full_datetime := pad4 now.year ++ "-" ++ pad2 now.month ++ "-" ++ pad2 now.day
      ++ " " ++ pad2 now.hour ++ ":" ++ pad2 now.minute ++ ":" ++ pad2 now.second }

/-- The script's clock access: `main` calls `get_time_info`, which reads
`datetime.now()` exactly once (line 18). The clock is modelled as a stream of
successive readings; the builder consumes only reading 0. -/
def get_time_info_clocked (clock : Nat → DateTime) : TimeInfo :=
  get_time_info (clock 0)

/-- The `time_info` dictionary in insertion order (lines 20-28), as the
key/value list that `json.dumps` serializes. -/
def timeInfoList (ti : TimeInfo) : List (String × String) :=
  [("year", ti.year), ("year_short", ti.year_short), ("month_year", ti.month_year),
   ("quarter", ti.quarter), ("date_iso", ti.date_iso),
   ("search_suffix", ti.search_suffix), ("full_datetime", ti.full_datetime)]

/-- One member line of the JSON object: two indent spaces, the quoted key,
a colon-space, and the quoted value, exactly as `json.dumps(..., indent=2)`
lays out a string-valued member. -/
def serializeItem (kv : String × String) : List Char :=
  ' ' :: ' ' :: '"' :: (kv.1.data ++ '"' :: ':' :: ' ' :: '"' :: (kv.2.data ++ ['"']))

/-- The member lines of the JSON object, comma-and-newline separated, closed
by the final newline and `}`. -/
def serializeItems : List (String × String) → List Char
  | [] => []
  | [kv] => serializeItem kv ++ ['\n', '}']
  | kv :: rest => serializeItem kv ++ ',' :: '\n' :: serializeItems rest

/-- `json.dumps(time_info, indent=2)` (line 78) for a dictionary of string
values that need no escaping (every character printable ASCII other than the
double quote and the backslash — the script's values satisfy this): opening
brace, newline, the 2-space-indented members separated by `",\n"`, newline,
closing brace. -/
def jsonDumps (kvs : List (String × String)) : String :=
  match kvs with
  | [] => "\x7b\x7d"
  | _ => String.mk ('{' :: '\n' :: serializeItems kvs)

/-- Read characters up to the next double quote; return the string read and
the remaining input. -/
def takeStr : List Char → Option (String × List Char)
  | [] => none
  | c :: rest =>
    if c = '"' then some ("", rest)
    else
      match takeStr rest with
      | some (v, r) => some (String.mk (c :: v.data), r)
      | none => none

/-- Parse the member lines of a JSON object in the exact shape `jsonDumps`
emits, with a fuel bound on the number of members. -/
def parseItems : Nat → List Char → Option (List (String × String))
  | 0, _ => none
  | fuel + 1, cs =>
    match cs with
    | ' ' :: ' ' :: '"' :: rest =>
      match takeStr rest with
      | some (k, r1) =>
        match r1 with
        | ':' :: ' ' :: '"' :: r2 =>
          match takeStr r2 with
          | some (v, r3) =>
            match r3 with
            | ',' :: '\n' :: r4 =>
              match parseItems fuel r4 with
              | some l => some ((k, v) :: l)
              | none => none
            | ['\n', '}'] => some [(k, v)]
            | _ => none
          | none => none
        | _ => none
      | none => none
    | _ => none

/-- A JSON parser for the object shape `jsonDumps` emits: the round-trip
check of the `--json` output. -/
def jsonParse (s : String) : Option (List (String × String)) :=
  match s.data with
  | ['{', '}'] => some []
  | '{' :: '\n' :: rest => parseItems (rest.length + 1) rest
  | _ => none

/-- A string `json.dumps` serializes verbatim (no escape sequences): every
character is printable ASCII and neither `"` nor `\`. -/
def jsonSafe (s : String) : Prop :=
  ∀ c ∈ s.data, 32 ≤ c.toNat ∧ c.toNat ≤ 126 ∧ c ≠ '"' ∧ c ≠ '\\'

instance (s : String) : Decidable (jsonSafe s) := by
  unfold jsonSafe; infer_instance

/-- `"=" * 60` (lines 32, 34). -/
def sixtyEq : String := String.mk (List.replicate 60 '=')

/-- `"-" * 40` (lines 40, 47, 55). -/
def fortyDash : String := String.mk (List.replicate 40 '-')

/-- `print_search_tips` (lines 30-60): the successive arguments the function
passes to `print`, in order. -/
def print_search_tips (ti : TimeInfo) : List String :=
  [ sixtyEq,
    "TIME-AWARE SEARCH TIPS",
    sixtyEq,
    "\nCurrent Year: " ++ ti.year,
    "Current Quarter: " ++ ti.quarter,
    "Current Date: " ++ ti.date_iso,
    "",
    "SEARCH QUERY EXAMPLES:",
    fortyDash,
    "  \"FastAPI JWT authentication " ++ ti.year ++ "\"",
    "  \"React useEffect best practices " ++ ti.year ++ "\"",
    "  \"Python security vulnerabilities " ++ ti.year ++ "\"",
    "  \"Next.js 14 breaking changes " ++ ti.year ++ "\"",
    "",
    "WHY ADD THE YEAR?",
    fortyDash,
    "  • Libraries and frameworks update frequently",
    "  • Best practices evolve over time",
    "  • Security recommendations change",
    "  • Adding the year filters out outdated content",
    "  • Results prioritize recent tutorials and docs",
    "",
    "SEARCH SUFFIXES TO TRY:",
    fortyDash,
    "  \"[topic] " ++ ti.year ++ "\"          - General current info",
    "  \"[topic] latest " ++ ti.year ++ "\"   - Emphasize recency",
    "  \"[topic] best practices " ++ ti.year ++ "\" - Current standards",
    "  \"[topic] changelog " ++ ti.year ++ "\" - Recent changes",
    "" ]

/-- The module docstring (lines 1-11), printed by the `--help` branch. -/
def docString : String :=
  "\nTime-aware search utility for external research.\n\nThis script provides current date/time information in formats useful for\nconstructing search queries that prioritize recent and relevant results.\n\nUsage:\n    python get_current_time.py           # Get all formats\n    python get_current_time.py --year    # Just the year\n    python get_current_time.py --search  # Search-friendly format\n"

/-- The `--help` branch output (lines 82-90): the docstring, then the static
option list. -/
def helpLines : List String :=
  [ docString,
    "\nOptions:",
    "  --year, -y     Just the current year (e.g., 2026)",
    "  --search, -s   Search-friendly suffix",
    "  --quarter, -q  Current quarter (e.g., Q1 2026)",
    "  --date, -d     ISO date (e.g., 2026-02-08)",
    "  --json, -j     All formats as JSON",
    "  --tips, -t     Print search tips with examples",
    "  --help, -h     Show this help message" ]

/-- Python `str.lower()` on the argument token (line 66): character-wise
ASCII case folding, which agrees with `str.lower` on ASCII input. -/
def pyLower (s : String) : String :=
  String.mk (s.data.map Char.toLower)

/-- The fourteen tokens the dispatcher recognizes after case folding
(lines 68-90). -/
def recognized_args : List String :=
  ["--year", "-y", "--search", "-s", "--quarter", "-q", "--date", "-d",
   "--json", "-j", "--tips", "-t", "--help", "-h"]

/-- `main` (lines 62-96): `args` is `sys.argv[1:]`. The result is the list
of strings passed to `print`, in order, paired with the process exit status
(1 from `sys.exit(1)` on line 94, otherwise 0 from normal termination). -/
def main (now : DateTime) (args : List String) : List String × Nat :=
  let time_info := get_time_info now
  match args with
  | [] => (print_search_tips time_info, 0)
  | a :: _ =>
    let arg := pyLower a
    if arg = "--year" ∨ arg = "-y" then ([time_info.year], 0)
    else if arg = "--search" ∨ arg = "-s" then ([time_info.search_suffix], 0)
    else if arg = "--quarter" ∨ arg = "-q" then ([time_info.quarter], 0)
    else if arg = "--date" ∨ arg = "-d" then ([time_info.date_iso], 0)
    else if arg = "--json" ∨ arg = "-j" then ([jsonDumps (timeInfoList time_info)], 0)
    else if arg = "--tips" ∨ arg = "-t" then (print_search_tips time_info, 0)
    else if arg = "--help" ∨ arg = "-h" then (helpLines, 0)
    else (["Unknown argument: " ++ arg, "Use --help for usage information"], 1)

/-- The concrete instant of the spec's scenario: 2026-02-08 14:30:00. -/
def scenarioInstant : DateTime :=
  { year := 2026, month := 2, day := 8, hour := 14, minute := 30, second := 0 }

end GetCurrentTime

namespace GetCurrentTime

theorem takeStr_append (l : List Char) (r : List Char) (h : ∀ c ∈ l, c ≠ '"') :
    takeStr (l ++ '"' :: r) = some (String.mk l, r) := by
  induction l with
  | nil => rfl
  | cons c cs ih =>
    have hc : c ≠ '"' := h c (by simp)
    have ih2 := ih (fun c hc => h c (by simp [hc]))
    simp [takeStr, hc, ih2]

theorem parseItems_last (fuel : Nat) (k v : String)
    (hk : ∀ c ∈ k.data, c ≠ '"') (hv : ∀ c ∈ v.data, c ≠ '"') :
    parseItems (fuel + 1) (serializeItem (k, v) ++ ['\n', '}']) = some [(k, v)] := by
  simp only [serializeItem, List.cons_append, List.append_assoc, List.nil_append, parseItems]
  rw [takeStr_append k.data _ hk]
  show (match takeStr (v.data ++ '"' :: ['\n', '}']) with
    | some (v, r3) =>
      match r3 with
      | ',' :: '\n' :: r4 =>
        match parseItems fuel r4 with
        | some l => some ((String.mk k.data, v) :: l)
        | none => none
      | ['\n', '}'] => some [(String.mk k.data, v)]
      | _ => none
    | none => none) = some [(k, v)]
  rw [takeStr_append v.data _ hv]
  rfl

theorem parseItems_step (fuel : Nat) (k v : String) (cs : List Char)
    (hk : ∀ c ∈ k.data, c ≠ '"') (hv : ∀ c ∈ v.data, c ≠ '"') :
    parseItems (fuel + 1) (serializeItem (k, v) ++ ',' :: '\n' :: cs) =
      match parseItems fuel cs with
      | some l => some ((k, v) :: l)
      | none => none := by
  simp only [serializeItem, List.cons_append, List.append_assoc, List.nil_append, parseItems]
  rw [takeStr_append k.data _ hk]
  show (match takeStr (v.data ++ '"' :: ',' :: '\n' :: cs) with
    | some (v, r3) =>
      match r3 with
      | ',' :: '\n' :: r4 =>
        match parseItems fuel r4 with
        | some l => some ((String.mk k.data, v) :: l)
        | none => none
      | ['\n', '}'] => some [(String.mk k.data, v)]
      | _ => none
    | none => none) = _
  rw [takeStr_append v.data _ hv]
  rfl

end GetCurrentTime

namespace GetCurrentTime

theorem serializeItems_length (kvs : List (String × String)) :
    kvs.length ≤ (serializeItems kvs).length := by
  induction kvs with
  | nil => exact Nat.le.refl
  | cons kv rest ih =>
    cases rest with
    | nil => simp [serializeItems, serializeItem]
    | cons r rs =>
      have h1 : serializeItems (kv :: r :: rs)
          = serializeItem kv ++ ',' :: '\n' :: serializeItems (r :: rs) := rfl
      rw [h1]
      simp only [List.length_cons, List.length_append] at ih ⊢
      omega

theorem parseItems_serializeItems (kvs : List (String × String)) (hne : kvs ≠ [])
    (hsafe : ∀ kv ∈ kvs, (∀ c ∈ kv.1.data, c ≠ '"') ∧ (∀ c ∈ kv.2.data, c ≠ '"'))
    (fuel : Nat) (hfuel : kvs.length ≤ fuel) :
    parseItems fuel (serializeItems kvs) = some kvs := by
  induction kvs generalizing fuel with
  | nil => exact absurd rfl hne
  | cons kv rest ih =>
    obtain ⟨f, rfl⟩ : ∃ f, fuel = f + 1 := by
      cases fuel
      · exact absurd (by simp only [List.length_cons] at hfuel; exact hfuel : rest.length + 1 ≤ 0) (by omega)
      · exact ⟨_, rfl⟩
    obtain ⟨hk, hv⟩ := hsafe kv (by simp)
    match rest with
    | [] =>
      show parseItems (f + 1) (serializeItem kv ++ ['\n', '}']) = some [kv]
      exact parseItems_last f kv.1 kv.2 hk hv
    | r :: rs =>
      show parseItems (f + 1) (serializeItem kv ++ ',' :: '\n' :: serializeItems (r :: rs)) = _
      rw [parseItems_step f kv.1 kv.2 _ hk hv]
      rw [ih (by simp) (fun x hx => hsafe x (by simp [hx])) f (by simpa using hfuel)]

theorem jsonParse_jsonDumps (kvs : List (String × String)) (hne : kvs ≠ [])
    (hsafe : ∀ kv ∈ kvs, jsonSafe kv.1 ∧ jsonSafe kv.2) :
    jsonParse (jsonDumps kvs) = some kvs := by
  have hq : ∀ kv ∈ kvs, (∀ c ∈ kv.1.data, c ≠ '"') ∧ (∀ c ∈ kv.2.data, c ≠ '"') :=
    fun kv hkv =>
      ⟨fun c hc => ((hsafe kv hkv).1 c hc).2.2.1, fun c hc => ((hsafe kv hkv).2 c hc).2.2.1⟩
  match kvs, hne with
  | kv :: rest, _ =>
    show jsonParse (String.mk ('{' :: '\n' :: serializeItems (kv :: rest))) = _
    show parseItems ((serializeItems (kv :: rest)).length + 1) (serializeItems (kv :: rest)) = _
    exact parseItems_serializeItems _ (by simp) hq _
      (Nat.le_succ_of_le (serializeItems_length _))

end GetCurrentTime

namespace GetCurrentTime

theorem main_unknown_eq (dt : DateTime) (t : String) (rest : List String)
    (h : pyLower t ∉ recognized_args) :
    main dt (t :: rest)
      = (["Unknown argument: " ++ pyLower t, "Use --help for usage information"], 1) := by
  simp only [recognized_args, List.mem_cons, List.not_mem_nil, or_false, not_or] at h
  obtain ⟨h1, h2, h3, h4, h5, h6, h7, h8, h9, h10, h11, h12, h13, h14⟩ := h
  simp [main, h1, h2, h3, h4, h5, h6, h7, h8, h9, h10, h11, h12, h13, h14]

/-- C5: for every captured instant, the `search_suffix` field equals the
`year` field: both are `now.strftime("%Y")`. -/
theorem c5_search_suffix_eq_year (dt : DateTime) :
    (get_time_info dt).search_suffix = (get_time_info dt).year := rfl

/-- C7: for the captured instant 2026-02-08 14:30:00, `--quarter` prints
`Q1 2026`, `--date` prints `2026-02-08`, `--year` prints `2026`, and the
no-argument tips output contains the line `Current Quarter: Q1 2026`. -/
theorem c7_concrete_scenario :
    main scenarioInstant ["--quarter"] = (["Q1 2026"], 0)
    ∧ main scenarioInstant ["--date"] = (["2026-02-08"], 0)
    ∧ main scenarioInstant ["--year"] = (["2026"], 0)
    ∧ "Current Quarter: Q1 2026" ∈ (main scenarioInstant []).1 := by decide

/-- C10: only the first argument determines behavior; everything after it is
ignored, so `--year --json` behaves exactly like `--year`. -/
theorem c10_extra_args_ignored (dt : DateTime) (t : String) (rest rest₂ : List String) :
    main dt (t :: rest) = main dt (t :: rest₂)
    ∧ main dt ["--year", "--json"] = main dt ["--year"] := ⟨rfl, rfl⟩

/-- C4: the Time Field Builder is deterministic in the captured instant: it
reads the clock once, and two runs over clocks that agree on that single
reading produce identical `TimeInfo` values. -/
theorem c4_deterministic_single_clock_read :
    (∀ clock : Nat → DateTime, get_time_info_clocked clock = get_time_info_clocked clock)
    ∧ ∀ c₁ c₂ : Nat → DateTime, c₁ 0 = c₂ 0 →
        get_time_info_clocked c₁ = get_time_info_clocked c₂ :=
  ⟨fun _ => rfl, fun _ _ h => by unfold get_time_info_clocked; rw [h]⟩

theorem c4_deterministic_single_clock_read_witness :
    get_time_info_clocked (fun _ => scenarioInstant)
      = get_time_info_clocked (fun n => if n = 0 then scenarioInstant else scenarioInstant) :=
  c4_deterministic_single_clock_read.2 _ _ (by decide)

/-- C2: the quarter field is `"Q{n} {year}"` with `n = (month - 1) / 3 + 1`,
hence one of `Q1`..`Q4` of the instant's year when the month is in 1..12. -/
theorem c2_quarter_field (dt : DateTime) (hm1 : 1 ≤ dt.month) (hm2 : dt.month ≤ 12) :
    (get_time_info dt).quarter
      = "Q" ++ Nat.repr ((dt.month - 1) / 3 + 1) ++ " " ++ Nat.repr dt.year
    ∧ (get_time_info dt).quarter ∈
      ["Q1 " ++ Nat.repr dt.year, "Q2 " ++ Nat.repr dt.year,
       "Q3 " ++ Nat.repr dt.year, "Q4 " ++ Nat.repr dt.year] := by
  refine ⟨rfl, ?_⟩
  show "Q" ++ Nat.repr ((dt.month - 1) / 3 + 1) ++ " " ++ Nat.repr dt.year ∈ _
  have hn : (dt.month - 1) / 3 + 1 = 1 ∨ (dt.month - 1) / 3 + 1 = 2
      ∨ (dt.month - 1) / 3 + 1 = 3 ∨ (dt.month - 1) / 3 + 1 = 4 := by omega
  rcases hn with h | h | h | h
  · rw [h, show ("Q" ++ Nat.repr 1 ++ " " : String) = "Q1 " from by decide]; simp
  · rw [h, show ("Q" ++ Nat.repr 2 ++ " " : String) = "Q2 " from by decide]; simp
  · rw [h, show ("Q" ++ Nat.repr 3 ++ " " : String) = "Q3 " from by decide]; simp
  · rw [h, show ("Q" ++ Nat.repr 4 ++ " " : String) = "Q4 " from by decide]; simp

theorem c2_quarter_field_witness :
    1 ≤ scenarioInstant.month ∧ scenarioInstant.month ≤ 12
    ∧ (get_time_info scenarioInstant).quarter ∈
      ["Q1 " ++ Nat.repr scenarioInstant.year, "Q2 " ++ Nat.repr scenarioInstant.year,
       "Q3 " ++ Nat.repr scenarioInstant.year, "Q4 " ++ Nat.repr scenarioInstant.year] :=
  ⟨by decide, by decide,
    (c2_quarter_field scenarioInstant (by decide) (by decide)).2⟩

end GetCurrentTime

namespace GetCurrentTime

/-- C1 fails as stated: for the unrecognized token `--BOGUS` the program does
not print `Unknown argument: --BOGUS`; it prints the case-folded form
`Unknown argument: --bogus` (and exits 1). -/
theorem c1_unknown_token_not_verbatim :
    (main scenarioInstant ["--BOGUS"]).2 ≠ 0
    ∧ "Unknown argument: --BOGUS" ∉ (main scenarioInstant ["--BOGUS"]).1
    ∧ (main scenarioInstant ["--BOGUS"]).1
      = ["Unknown argument: --bogus", "Use --help for usage information"] := by decide

/-- C1 amended: for every unrecognized token the program prints
`Unknown argument: {lower(token)}` — the case-folded form of the token — to
standard output and exits with a non-zero status. -/
theorem c1_unknown_token_reported_lowercased (dt : DateTime) (t : String)
    (rest : List String) (h : pyLower t ∉ recognized_args) :
    "Unknown argument: " ++ pyLower t ∈ (main dt (t :: rest)).1
    ∧ (main dt (t :: rest)).2 ≠ 0 := by
  rw [main_unknown_eq dt t rest h]
  simp

theorem c1_unknown_token_reported_lowercased_witness :
    pyLower "--bogus" ∉ recognized_args
    ∧ ("Unknown argument: " ++ pyLower "--bogus" ∈ (main scenarioInstant ["--bogus"]).1
       ∧ (main scenarioInstant ["--bogus"]).2 ≠ 0) :=
  ⟨by decide, c1_unknown_token_reported_lowercased scenarioInstant "--bogus" [] (by decide)⟩

/-- C9: for every unrecognized token the program writes exactly two lines —
`Unknown argument: {lower(t)}` then `Use --help for usage information` — and
exits with status 1. -/
theorem c9_unknown_two_lines_exit_one (dt : DateTime) (t : String)
    (rest : List String) (h : pyLower t ∉ recognized_args) :
    main dt (t :: rest)
      = (["Unknown argument: " ++ pyLower t, "Use --help for usage information"], 1) :=
  main_unknown_eq dt t rest h

theorem c9_unknown_two_lines_exit_one_witness :
    pyLower "--BOGUS" ∉ recognized_args
    ∧ main scenarioInstant ["--BOGUS"]
      = (["Unknown argument: " ++ pyLower "--BOGUS", "Use --help for usage information"], 1) :=
  ⟨by decide, c9_unknown_two_lines_exit_one scenarioInstant "--BOGUS" [] (by decide)⟩

/-- C6: dispatch is case-insensitive (tokens with the same case folding are
interchangeable) and alias-equivalent (each long flag behaves exactly like
its short alias, and `--YEAR` like `--year`). -/
theorem c6_case_insensitive_alias_equivalent (dt : DateTime) (rest : List String) :
    (∀ t₁ t₂ : String, pyLower t₁ = pyLower t₂ →
      main dt (t₁ :: rest) = main dt (t₂ :: rest))
    ∧ main dt ("--YEAR" :: rest) = main dt ("--year" :: rest)
    ∧ main dt ("--year" :: rest) = main dt ("-y" :: rest)
    ∧ main dt ("--search" :: rest) = main dt ("-s" :: rest)
    ∧ main dt ("--quarter" :: rest) = main dt ("-q" :: rest)
    ∧ main dt ("--date" :: rest) = main dt ("-d" :: rest)
    ∧ main dt ("--json" :: rest) = main dt ("-j" :: rest)
    ∧ main dt ("--tips" :: rest) = main dt ("-t" :: rest)
    ∧ main dt ("--help" :: rest) = main dt ("-h" :: rest) := by
  refine ⟨fun t₁ t₂ h => ?_, rfl, rfl, rfl, rfl, rfl, rfl, rfl, rfl⟩
  simp only [main]
  rw [h]

theorem c6_case_insensitive_alias_equivalent_witness :
    pyLower "--Year" = pyLower "--year"
    ∧ main scenarioInstant ["--Year"] = main scenarioInstant ["--year"] :=
  ⟨by decide,
    (c6_case_insensitive_alias_equivalent scenarioInstant []).1 "--Year" "--year" (by decide)⟩

/-- C8: the no-argument branch and every recognized flag print at least one
string and exit 0; an unrecognized first token exits 1. -/
theorem c8_exit_status (dt : DateTime) :
    ((main dt []).2 = 0 ∧ (main dt []).1 ≠ [])
    ∧ ∀ (t : String) (rest : List String),
        (main dt (t :: rest)).2 = (if pyLower t ∈ recognized_args then 0 else 1)
        ∧ (main dt (t :: rest)).1 ≠ [] := by
  refine ⟨⟨rfl, by simp [main, print_search_tips]⟩, fun t rest => ?_⟩
  by_cases hmem : pyLower t ∈ recognized_args
  · rw [if_pos hmem]
    have h := hmem
    simp only [recognized_args, List.mem_cons, List.not_mem_nil, or_false] at h
    rcases h with h | h | h | h | h | h | h | h | h | h | h | h | h | h <;>
      simp [main, h, helpLines, print_search_tips]
  · rw [if_neg hmem, main_unknown_eq dt t rest hmem]
    simp

theorem c8_exit_status_witness :
    (main scenarioInstant ["--tips"]).2
      = (if pyLower "--tips" ∈ recognized_args then 0 else 1)
    ∧ (main scenarioInstant ["--tips"]).1 ≠ [] :=
  (c8_exit_status scenarioInstant).2 "--tips" []

/-- C3: the `--json` branch prints exactly the 2-space-indented JSON object
of the seven fields in insertion order, and parsing that output recovers the
seven key/value pairs exactly. -/
theorem c3_json_output_roundtrip (dt : DateTime)
    (hsafe : ∀ kv ∈ timeInfoList (get_time_info dt), jsonSafe kv.1 ∧ jsonSafe kv.2) :
    main dt ["--json"] = ([jsonDumps (timeInfoList (get_time_info dt))], 0)
    ∧ (timeInfoList (get_time_info dt)).map Prod.fst
        = ["year", "year_short", "month_year", "quarter", "date_iso",
           "search_suffix", "full_datetime"]
    ∧ jsonParse (jsonDumps (timeInfoList (get_time_info dt)))
        = some (timeInfoList (get_time_info dt)) :=
  ⟨rfl, rfl, jsonParse_jsonDumps _ (by simp [timeInfoList]) hsafe⟩

set_option maxRecDepth 8000 in
theorem c3_json_output_roundtrip_witness :
    (∀ kv ∈ timeInfoList (get_time_info scenarioInstant), jsonSafe kv.1 ∧ jsonSafe kv.2)
    ∧ jsonParse (jsonDumps (timeInfoList (get_time_info scenarioInstant)))
        = some (timeInfoList (get_time_info scenarioInstant)) :=
  ⟨by decide, (c3_json_output_roundtrip scenarioInstant (by decide)).2.2⟩

end GetCurrentTime
